import Mathlib

/-
Shallow embedding of the offline-first task sync service
(src/services/taskService.ts and src/services/syncService.ts).

Timestamps are modelled as natural numbers (milliseconds since epoch):
the code stores ISO strings and compares via Date.getTime(), which is
order- and equality-preserving. SQLite rows become Lean structures;
tables become lists; SQL UPDATE/DELETE ... WHERE id = ? become
List.map / List.filter over the matching predicate; INSERT appends.
Network effects (connectivity probe, batch POST) are modelled as an
explicit environment for one sync() pass.
-/

namespace TaskSync

/-- A row of the `tasks` table, as written by taskService / syncService. -/
structure TaskRow where
  id : String
  title : String
  description : Option String
  completed : Bool
  is_deleted : Bool
  created_at : Nat
  updated_at : Nat
  sync_status : String
  server_id : Option String
  last_synced_at : Option Nat
  deriving Repr, DecidableEq

/-- The in-memory `Task` shape produced by `rowToTask` and consumed by
`resolveConflict` (the TS `Task` type). -/
structure Task where
  id : String
  title : String
  description : Option String
  completed : Bool
  is_deleted : Bool
  created_at : Nat
  updated_at : Nat
  sync_status : String
  server_id : Option String
  deriving Repr, DecidableEq

/-- The serialized snapshot stored in the queue's `data` column
(the object literal passed to `addToSyncQueue`). -/
structure TaskSnap where
  id : String
  title : String
  description : Option String
  completed : Bool
  updated_at : Nat
  created_at : Nat
  is_deleted : Bool
  server_id : Option String
  deriving Repr, DecidableEq

/-- A row of the `sync_queue` table. -/
structure QueueRow where
  id : String
  task_id : String
  operation : String
  data : TaskSnap
  retry_count : Nat
  error_message : Option String
  created_at : Nat
  deriving Repr, DecidableEq

/-- The two tables the services touch. -/
structure DBState where
  tasks : List TaskRow
  sync_queue : List QueueRow
  deriving Repr, DecidableEq

/-- One per-item error record of a SyncResult. -/
structure SyncError where
  task_id : String
  operation : String
  error : String
  timestamp : Nat
  deriving Repr, DecidableEq

/-- The aggregate result of one sync() pass. -/
structure SyncResult where
  success : Bool
  synced_items : Nat
  failed_items : Nat
  errors : List SyncError
  deriving Repr, DecidableEq

/-- SQL COALESCE on two nullable values. -/
def coalesce {α : Type} : Option α → Option α → Option α
  | some x, _ => some x
  | none, y => y

/-- JS `s || fallback` on strings (empty string is falsy). -/
def jsOr (s fallback : String) : String :=
  if s = "" then fallback else s

/-- SELECT * FROM tasks WHERE id = ? (db.get: first matching row). -/
def tasksGet (st : DBState) (id : String) : Option TaskRow :=
  st.tasks.find? (fun r => r.id = id)

/-- taskService.rowToTask: convert a DB row to the in-memory Task. -/
def rowToTask (row : TaskRow) : Task :=
  { id := row.id, title := row.title, description := row.description,
    completed := row.completed, is_deleted := row.is_deleted,
    created_at := row.created_at, updated_at := row.updated_at,
    sync_status := row.sync_status, server_id := row.server_id }

/-- taskService.getTask: null for a missing row and for a soft-deleted one. -/
def getTask (st : DBState) (id : String) : Option Task :=
  match tasksGet st id with
  | none => none
  | some row => if row.is_deleted then none else some (rowToTask row)

/-- syncService.addToSyncQueue: INSERT INTO sync_queue
(id, task_id, operation, data, retry_count, created_at)
VALUES (taskId, taskId, operation, data, 0, now). -/
def addToSyncQueue (taskId operation : String) (data : TaskSnap) (now : Nat)
    (st : DBState) : DBState :=
  { st with sync_queue := st.sync_queue ++
      [{ id := taskId, task_id := taskId, operation := operation, data := data,
         retry_count := 0, error_message := none, created_at := now }] }

/-- syncService.resolveConflict: last-write-wins on updated_at,
strictly greater server timestamp wins, ties go to local. -/
def resolveConflict (localTask serverTask : Task) : Task :=
  if serverTask.updated_at > localTask.updated_at then serverTask else localTask

/-- syncService.updateSyncStatus: UPDATE tasks SET sync_status = ?,
last_synced_at = ?, server_id = COALESCE(?, server_id) WHERE id = ?. -/
def updateSyncStatus (taskId status : String) (serverId : Option String)
    (now : Nat) (st : DBState) : DBState :=
  { st with tasks := st.tasks.map fun row =>
      if row.id = taskId then
        { row with sync_status := status, last_synced_at := some now,
                   server_id := coalesce serverId row.server_id }
      else row }

/-- syncService.handleSyncError: UPDATE sync_queue SET
retry_count = retry_count + 1, error_message = ? WHERE id = ?,
then updateSyncStatus(task_id, "error"). -/
def handleSyncError (item : QueueRow) (msg : String) (now : Nat)
    (st : DBState) : DBState :=
  let st1 : DBState :=
    { st with sync_queue := st.sync_queue.map fun q =>
        if q.id = item.id then
          { q with retry_count := q.retry_count + 1, error_message := some msg }
        else q }
  updateSyncStatus item.task_id "error" none now st1

/-- The conflict-branch writeback in sync(): UPDATE tasks SET title, description,
completed, updated_at, sync_status = 'synced', server_id = ? WHERE id = ?
(server_id is set directly from the verdict, no COALESCE here). -/
def conflictWriteback (taskId : String) (winner : Task) (serverId : Option String)
    (st : DBState) : DBState :=
  { st with tasks := st.tasks.map fun row =>
      if row.id = taskId then
        { row with title := winner.title, description := winner.description,
                   completed := winner.completed, updated_at := winner.updated_at,
                   sync_status := "synced", server_id := serverId }
      else row }

/-- DELETE FROM sync_queue WHERE id = ?. -/
def deleteQueue (id : String) (st : DBState) : DBState :=
  { st with sync_queue := st.sync_queue.filter (fun q => ¬ q.id = id) }

/-- Stable insertion by created_at, earlier timestamps first;
equal timestamps keep insertion order. -/
def insertByCreated (q : QueueRow) : List QueueRow → List QueueRow
  | [] => [q]
  | r :: rs => if q.created_at < r.created_at then q :: r :: rs
               else r :: insertByCreated q rs

/-- ORDER BY created_at over the queue (stable sort). -/
def sortByCreated : List QueueRow → List QueueRow
  | [] => []
  | r :: rs => insertByCreated r (sortByCreated rs)

/-- SELECT * FROM sync_queue ORDER BY created_at LIMIT batchSize. -/
def selectBatch (st : DBState) (batchSize : Nat) : List QueueRow :=
  (sortByCreated st.sync_queue).take batchSize

/-- One verdict of the batch response (a `processed_items` element). -/
structure BatchVerdict where
  client_id : String
  status : String
  server_id : Option String
  resolved_data : Option Task
  error : Option String
  deriving Repr, DecidableEq

/-- The environment of one sync() pass: connectivity probe outcome, the
batch response (`none` models the POST request throwing), the error
message of a thrown request, the wall-clock reading, and the batch size. -/
structure SyncEnv where
  online : Bool
  batchResponse : Option (List BatchVerdict)
  batchError : String
  now : Nat
  batchSize : Nat
  deriving Repr, DecidableEq

/-- The body of sync()'s per-verdict loop: match the verdict to a queue item
by `client_id` against the snapshot list's `id` (Array.find takes the first
match, skipping when absent), then apply the success / conflict / other arm. -/
def applyVerdict (now : Nat) (items : List QueueRow)
    (acc : DBState × Nat × Nat × List SyncError) (v : BatchVerdict) :
    DBState × Nat × Nat × List SyncError :=
  let st := acc.1
  let synced := acc.2.1
  let failed := acc.2.2.1
  let errs := acc.2.2.2
  match items.find? (fun i => i.id = v.client_id) with
  | none => acc
  | some item =>
    if v.status = "success" then
      let st1 := updateSyncStatus item.task_id "synced" v.server_id now st
      let st2 := deleteQueue item.id st1
      (st2, synced + 1, failed, errs)
    else if v.status = "conflict" then
      match getTask st item.task_id, v.resolved_data with
      | some localTask, some serverTask =>
        let winner := resolveConflict localTask serverTask
        let st1 := conflictWriteback localTask.id winner v.server_id st
        let st2 := deleteQueue item.id st1
        (st2, synced + 1, failed, errs)
      | _, _ =>
        let st1 := handleSyncError item "Conflict unresolved" now st
        (st1, synced, failed + 1,
         errs ++ [{ task_id := item.task_id, operation := item.operation,
                    error := "Conflict unresolved", timestamp := now }])
    else
      let msg := jsOr (v.error.getD "") "sync error"
      let st1 := handleSyncError item msg now st
      (st1, synced, failed + 1,
       errs ++ [{ task_id := item.task_id, operation := item.operation,
                  error := msg, timestamp := now }])

/-- syncService.sync(): probe, batch selection, batch submission,
per-verdict reconciliation, aggregate result. -/
def sync (env : SyncEnv) (st : DBState) : SyncResult × DBState :=
  if env.online = false then
    ({ success := false, synced_items := 0, failed_items := 0, errors := [] }, st)
  else
    let items := selectBatch st env.batchSize
    if items.isEmpty then
      ({ success := true, synced_items := 0, failed_items := 0, errors := [] }, st)
    else
      match env.batchResponse with
      | none =>
        let st1 := items.foldl (fun s i => handleSyncError i env.batchError env.now s) st
        ({ success := false, synced_items := 0, failed_items := items.length,
           errors := items.map fun i =>
             { task_id := i.task_id, operation := i.operation,
               error := jsOr env.batchError "batch error", timestamp := env.now } }, st1)
      | some verdicts =>
        let out := verdicts.foldl (applyVerdict env.now items) (st, 0, 0, ([] : List SyncError))
        ({ success := decide (out.2.2.1 = 0), synced_items := out.2.1,
           failed_items := out.2.2.1, errors := out.2.2.2 }, out.1)

/-- The fields of Partial<Task> that createTask reads. -/
structure CreateInput where
  title : Option String
  description : Option String
  completed : Option Bool
  server_id : Option String
  deriving Repr, DecidableEq

/-- The fields of Partial<Task> that updateTask can effectively change
(updated_at and sync_status are overridden; id and created_at are not
part of the UPDATE statement). -/
structure TaskUpdate where
  title : Option String
  description : Option (Option String)
  completed : Option Bool
  is_deleted : Option Bool
  server_id : Option (Option String)
  deriving Repr, DecidableEq

/-- The snapshot object enqueued by createTask / updateTask. -/
def snapOfTask (t : Task) : TaskSnap :=
  { id := t.id, title := t.title, description := t.description,
    completed := t.completed, updated_at := t.updated_at,
    created_at := t.created_at, is_deleted := t.is_deleted,
    server_id := t.server_id }

/-- taskService.createTask: build the Task with defaults, INSERT the row,
then enqueue one create intent. `newId` stands for uuidv4(). -/
def createTask (newId : String) (now : Nat) (inp : CreateInput)
    (st : DBState) : Task × DBState :=
  let task : Task :=
    { id := newId, title := inp.title.getD "",
      description := some (inp.description.getD ""),
      completed := inp.completed.getD false, is_deleted := false,
      created_at := now, updated_at := now, sync_status := "pending",
      server_id := inp.server_id }
  let st1 : DBState :=
    { st with tasks := st.tasks ++
        [{ id := task.id, title := task.title, description := task.description,
           completed := task.completed, is_deleted := task.is_deleted,
           created_at := task.created_at, updated_at := task.updated_at,
           sync_status := task.sync_status, server_id := task.server_id,
           last_synced_at := none }] }
  (task, addToSyncQueue task.id "create" (snapOfTask task) now st1)

/-- The merged Task built by updateTask's object spread
(existing fields overridden by the given updates, then
updated_at := now and sync_status := pending). -/
def mergedTask (existing : Task) (upd : TaskUpdate) (now : Nat) : Task :=
  { existing with
    title := upd.title.getD existing.title,
    description := upd.description.getD existing.description,
    completed := upd.completed.getD existing.completed,
    is_deleted := upd.is_deleted.getD existing.is_deleted,
    server_id := upd.server_id.getD existing.server_id,
    updated_at := now, sync_status := "pending" }

/-- The row written by updateTask's UPDATE statement
(created_at and last_synced_at are not in its SET list). -/
def updatedRowOf (row : TaskRow) (upd : TaskUpdate) (now : Nat) : TaskRow :=
  let u := mergedTask (rowToTask row) upd now
  { row with title := u.title, description := u.description,
             completed := u.completed, is_deleted := u.is_deleted,
             updated_at := u.updated_at, sync_status := u.sync_status,
             server_id := u.server_id }

/-- taskService.updateTask: null when the row is missing; otherwise UPDATE
the row and enqueue one update intent with the merged snapshot. -/
def updateTask (id : String) (now : Nat) (upd : TaskUpdate)
    (st : DBState) : Option Task × DBState :=
  match tasksGet st id with
  | none => (none, st)
  | some row =>
    let updated := mergedTask (rowToTask row) upd now
    let st1 : DBState :=
      { st with tasks := st.tasks.map fun r =>
          if r.id = id then updatedRowOf r upd now else r }
    (some updated, addToSyncQueue id "update" (snapOfTask updated) now st1)

/-- taskService.deleteTask: false when the row is missing; otherwise soft
delete (is_deleted = 1, updated_at = now, sync_status = pending) and
enqueue one delete intent. -/
def deleteTask (id : String) (now : Nat) (st : DBState) : Bool × DBState :=
  match tasksGet st id with
  | none => (false, st)
  | some row =>
    let existing := rowToTask row
    let st1 : DBState :=
      { st with tasks := st.tasks.map fun r =>
          if r.id = id then
            { r with is_deleted := true, updated_at := now, sync_status := "pending" }
          else r }
    (true, addToSyncQueue id "delete"
      { id := existing.id, title := existing.title,
        description := existing.description, completed := existing.completed,
        updated_at := now, created_at := existing.created_at,
        is_deleted := true, server_id := existing.server_id } now st1)

end TaskSync

namespace TaskSync

/-! Shared concrete fixtures for witnesses and counterexamples. -/

/-- A local task snapshot with updated_at 100. -/
def taskL : Task :=
  { id := "t", title := "local", description := none, completed := false,
    is_deleted := false, created_at := 0, updated_at := 100,
    sync_status := "pending", server_id := none }

/-- A server task snapshot with updated_at 150. -/
def taskS : Task :=
  { id := "t", title := "server", description := none, completed := true,
    is_deleted := false, created_at := 0, updated_at := 150,
    sync_status := "synced", server_id := some "srv-1" }

/-- An environment whose connectivity probe fails. -/
def envOffline : SyncEnv :=
  { online := false, batchResponse := none, batchError := "", now := 0,
    batchSize := 50 }

/-- A snapshot used to build concrete queue entries. -/
def snapT : TaskSnap :=
  { id := "t", title := "a", description := none, completed := false,
    updated_at := 1, created_at := 1, is_deleted := false, server_id := none }

/-- A concrete task row with updated_at 100. -/
def rowA : TaskRow :=
  { id := "t", title := "a", description := none, completed := false,
    is_deleted := false, created_at := 0, updated_at := 100,
    sync_status := "pending", server_id := none, last_synced_at := none }

/-- A concrete pending queue entry for task "t". -/
def entryT : QueueRow :=
  { id := "t", task_id := "t", operation := "create", data := snapT,
    retry_count := 0, error_message := none, created_at := 1 }

/-- A database holding one task row and one pending queue entry. -/
def stOne : DBState := { tasks := [rowA], sync_queue := [entryT] }

/-- An update object with every Partial field absent. -/
def updNoneA : TaskUpdate :=
  { title := none, description := none, completed := none, is_deleted := none,
    server_id := none }

/-- A database holding two queue entries for the same task "t"
(the result of a create followed by an update). -/
def stDup : DBState :=
  addToSyncQueue "t" "update" snapT 2
    (addToSyncQueue "t" "create" snapT 1 { tasks := [], sync_queue := [] })

/-- C1: conflict resolution is last-write-wins by timestamp — the server
snapshot is returned wholesale exactly when its updated_at is strictly
greater than the local one; otherwise (ties included) the local snapshot
is returned wholesale, with no field-level merge. -/
theorem resolveConflict_last_write_wins (l s : Task) :
    (l.updated_at < s.updated_at → resolveConflict l s = s) ∧
    (s.updated_at ≤ l.updated_at → resolveConflict l s = l) ∧
    (¬ l = s → (resolveConflict l s = s ↔ l.updated_at < s.updated_at)) := by
  refine ⟨fun h => ?_, fun h => ?_, fun hne => ?_⟩
  · simp [resolveConflict, h]
  · simp [resolveConflict, Nat.not_lt.mpr h]
  · constructor
    · intro hr
      by_contra hlt
      rw [resolveConflict, if_neg (by simpa using hlt)] at hr
      exact hne hr
    · intro h
      simp [resolveConflict, h]

/-- C1 witness: at updated_at 100 vs 150 the server snapshot wins, and with
the roles swapped the local (later) snapshot wins. -/
theorem resolveConflict_last_write_wins_witness :
    resolveConflict taskL taskS = taskS ∧ resolveConflict taskS taskL = taskS :=
  ⟨(resolveConflict_last_write_wins taskL taskS).1 (by decide),
   (resolveConflict_last_write_wins taskS taskL).2.1 (by decide)⟩

/-- C2 evaluation: a create followed by an update of the same task "t"
yields two queue entries that BOTH carry id "t" (addToSyncQueue writes the
task id into the queue id column), so the verdict-matching lookup
find(i.id = client_id) resolves any verdict for task "t" to the FIRST
(create) entry — entries cannot be told apart by queue-item identity. -/
theorem addToSyncQueue_id_collision_eval :
    stDup.sync_queue.map (fun q => (q.id, q.operation)) =
      [("t", "create"), ("t", "update")] ∧
    (stDup.sync_queue.find? (fun i => i.id = "t")).map (fun q => q.operation) =
      some "create" := by
  decide

/-- C4: when the connectivity probe fails, sync() returns the fixed no-op
result and the database (tasks and sync queue alike) is bit-for-bit
unchanged. -/
theorem sync_offline_noop (env : SyncEnv) (st : DBState)
    (h : env.online = false) :
    sync env st =
      ({ success := false, synced_items := 0, failed_items := 0, errors := [] },
       st) := by
  simp [sync, h]

/-- C4 witness: the offline environment on a nonempty database. -/
theorem sync_offline_noop_witness :
    sync envOffline stOne =
      ({ success := false, synced_items := 0, failed_items := 0, errors := [] },
       stOne) :=
  sync_offline_noop envOffline stOne rfl

/-- C5 evaluation: a batch of two queue entries for the same task "t" whose
submission fails ends with retry_count 2 on every entry — each
handleSyncError UPDATE keyed on the shared id "t" hits both rows — not the
claimed increment of exactly 1 (which would leave [1, 1]). -/
theorem batch_failure_duplicate_retry_eval :
    (sync { online := true, batchResponse := none, batchError := "network error",
            now := 9, batchSize := 50 } stDup).2.sync_queue.map
        (fun q => q.retry_count) = [2, 2] ∧
    stDup.sync_queue.map (fun q => q.retry_count) = [0, 0] ∧
    (sync { online := true, batchResponse := none, batchError := "network error",
            now := 9, batchSize := 50 } stDup).1 =
      { success := false, synced_items := 0, failed_items := 2,
        errors := [{ task_id := "t", operation := "create",
                     error := "network error", timestamp := 9 },
                   { task_id := "t", operation := "update",
                     error := "network error", timestamp := 9 }] } := by
  decide

/-- C9 counterexample: a task whose persisted updated_at is 100 is updated
at wall-clock reading 50; the stored updated_at regresses to 50 < 100, so
updated_at is not monotonically non-decreasing across mutations. -/
theorem updateTask_clock_regression_cex :
    (updateTask "t" 50
        { title := none, description := none, completed := none,
          is_deleted := none, server_id := none } stOne).2.tasks.map
        (fun r => r.updated_at) = [50] ∧
    stOne.tasks.map (fun r => r.updated_at) = [100] ∧ (50 : Nat) < 100 := by
  decide

end TaskSync

namespace TaskSync

/-- C3 counterexample: a pass aborted by a failed connectivity probe returns
success = false although failed_items = 0, so "success = true iff
failed_items = 0" does not hold of every invocation of sync(). -/
theorem sync_offline_success_iff_cex :
    (sync envOffline stOne).1.success = false ∧
    (sync envOffline stOne).1.failed_items = 0 := by
  decide

/-- C3 amended: on every pass whose connectivity probe succeeds, the
returned SyncResult has success = true iff failed_items = 0 (the empty
queue, the batch-submission failure and the per-verdict paths all satisfy
the equivalence); only a probe-failure pass breaks it. -/
theorem sync_success_iff_failed_zero_online (env : SyncEnv) (st : DBState)
    (h : env.online = true) :
    (sync env st).1.success = true ↔ (sync env st).1.failed_items = 0 := by
  rw [sync, if_neg (by simp [h])]
  by_cases hemp : (selectBatch st env.batchSize).isEmpty
  · simp [hemp]
  · cases hresp : env.batchResponse with
    | none =>
      have hne : ¬ (selectBatch st env.batchSize).length = 0 := by
        simpa [List.isEmpty_iff, List.length_eq_zero] using hemp
      simp [hemp, hresp, hne]
    | some verdicts => simp [hemp, hresp]

/-- C3 witness: an online pass over the one-entry database with an empty
verdict list satisfies the equivalence. -/
theorem sync_success_iff_failed_zero_online_witness :
    ((sync { online := true, batchResponse := some [], batchError := "",
             now := 3, batchSize := 50 } stOne).1.success = true ↔
     (sync { online := true, batchResponse := some [], batchError := "",
             now := 3, batchSize := 50 } stOne).1.failed_items = 0) :=
  sync_success_iff_failed_zero_online
    { online := true, batchResponse := some [], batchError := "",
      now := 3, batchSize := 50 } stOne rfl

/-- C10: addToSyncQueue appends one entry whose queue id and task_id both
equal the owning task's id; the id = task_id invariant is preserved across
enqueues, and under it the verdict matching find(i.id = client_id) used by
sync() picks an item whose task_id is the client_id — queue-item identity
coincides with task identity. -/
theorem queue_entry_id_eq_task_id (taskId op : String) (data : TaskSnap)
    (now : Nat) (st : DBState)
    (hinv : ∀ q ∈ st.sync_queue, q.id = q.task_id) :
    (∃ e, (addToSyncQueue taskId op data now st).sync_queue =
        st.sync_queue ++ [e] ∧ e.id = taskId ∧ e.task_id = taskId) ∧
    (∀ q ∈ (addToSyncQueue taskId op data now st).sync_queue,
        q.id = q.task_id) ∧
    (∀ (items : List QueueRow) (cid : String) (item : QueueRow),
        (∀ q ∈ items, q.id = q.task_id) →
        items.find? (fun i => i.id = cid) = some item → item.task_id = cid) := by
  refine ⟨⟨_, rfl, rfl, rfl⟩, ?_, ?_⟩
  · intro q hq
    rw [addToSyncQueue] at hq
    simp only [List.mem_append, List.mem_singleton] at hq
    rcases hq with hq | hq
    · exact hinv q hq
    · rw [hq]
  · intro items cid item hids hfind
    have hmem := List.mem_of_find?_eq_some hfind
    have hp := List.find?_some hfind
    simp only [decide_eq_true_eq] at hp
    rw [hids item hmem] at hp
    exact hp

/-- C10 witness: the verdict-matching lookup with client_id "t" over the
one-entry queue picks an item whose task_id is "t". -/
theorem queue_entry_id_eq_task_id_witness :
    entryT.task_id = "t" :=
  (queue_entry_id_eq_task_id "t" "update" snapT 2 stOne (by decide)).2.2
    stOne.sync_queue "t" entryT (by decide) (by decide)

end TaskSync

namespace TaskSync

/-- A success verdict carrying a server id, aimed at queue entry "t". -/
def verdictOk : BatchVerdict :=
  { client_id := "t", status := "success", server_id := some "srv-1",
    resolved_data := none, error := none }

/-- C6: a success verdict makes sync() set the owning task's sync_status to
"synced" with last_synced_at = now, update server_id by COALESCE (so a
provided server id is adopted and an absent one leaves the stored value
alone — never overwritten with null), delete the matched queue entry, and
count the item as synced. -/
theorem success_verdict_reconciliation (now : Nat) (items : List QueueRow)
    (st : DBState) (synced failed : Nat) (errs : List SyncError)
    (v : BatchVerdict) (item : QueueRow)
    (hs : v.status = "success")
    (hfind : items.find? (fun i => i.id = v.client_id) = some item) :
    applyVerdict now items (st, synced, failed, errs) v =
      ({ tasks := st.tasks.map fun row =>
           if row.id = item.task_id then
             { row with sync_status := "synced", last_synced_at := some now,
                        server_id := coalesce v.server_id row.server_id }
           else row,
         sync_queue := st.sync_queue.filter fun q => ¬ q.id = item.id },
       synced + 1, failed, errs) ∧
    (∀ q ∈ (applyVerdict now items (st, synced, failed, errs) v).1.sync_queue,
       ¬ q.id = item.id) ∧
    (v.server_id = none → ∀ row ∈ st.tasks, row.id = item.task_id →
       { row with sync_status := "synced", last_synced_at := some now }
         ∈ (applyVerdict now items (st, synced, failed, errs) v).1.tasks) := by
  have hout : applyVerdict now items (st, synced, failed, errs) v =
      ({ tasks := st.tasks.map fun row =>
           if row.id = item.task_id then
             { row with sync_status := "synced", last_synced_at := some now,
                        server_id := coalesce v.server_id row.server_id }
           else row,
         sync_queue := st.sync_queue.filter fun q => ¬ q.id = item.id },
       synced + 1, failed, errs) := by
    rw [applyVerdict, hfind]
    simp [hs, updateSyncStatus, deleteQueue]
  refine ⟨hout, ?_, ?_⟩
  · intro q hq
    rw [hout] at hq
    simp only [List.mem_filter, decide_eq_true_eq] at hq
    exact hq.2
  · intro hnone row hrow hid
    rw [hout]
    have hmem := List.mem_map_of_mem (fun r : TaskRow =>
      if r.id = item.task_id then
        { r with sync_status := "synced", last_synced_at := some now,
                 server_id := coalesce v.server_id r.server_id }
      else r) hrow
    simpa [hid, hnone, coalesce] using hmem

/-- C6 witness: the success verdict on the one-entry database marks task
"t" synced at 7, adopts server id "srv-1", deletes entry "t" and counts
one synced item. -/
theorem success_verdict_reconciliation_witness :
    applyVerdict 7 stOne.sync_queue (stOne, 0, 0, []) verdictOk =
      ({ tasks := stOne.tasks.map fun row =>
           if row.id = entryT.task_id then
             { row with sync_status := "synced", last_synced_at := some 7,
                        server_id := coalesce verdictOk.server_id row.server_id }
           else row,
         sync_queue := stOne.sync_queue.filter fun q => ¬ q.id = entryT.id },
       1, 0, []) :=
  (success_verdict_reconciliation 7 stOne.sync_queue stOne 0 0 [] verdictOk
    entryT rfl (by decide)).1

/-- When every row carrying the id is soft-deleted (or no row carries it),
getTask returns none — tombstoned tasks are invisible to reads. -/
theorem getTask_eq_none_of_deleted (st : DBState) (id : String)
    (h : ∀ row ∈ st.tasks, row.id = id → row.is_deleted = true) :
    getTask st id = none := by
  unfold getTask tasksGet
  cases hf : st.tasks.find? (fun r => r.id = id) with
  | none => rfl
  | some row =>
    have hmem := List.mem_of_find?_eq_some hf
    have hp := List.find?_some hf
    simp only [decide_eq_true_eq] at hp
    simp [h row hmem hp]

/-- C8: a conflict verdict whose local task is gone (every row with its id
soft-deleted, or no such row) or whose response carries no resolved
snapshot is treated as a failure: the matched queue entry is retained with
retry_count incremented by exactly 1 and error_message set, the owning
task's rows get sync_status "error", and the pass records one more failed
item with one error record. -/
theorem conflict_unresolved_marks_failed (now : Nat) (items : List QueueRow)
    (st : DBState) (synced failed : Nat) (errs : List SyncError)
    (v : BatchVerdict) (item : QueueRow)
    (hs : v.status = "conflict")
    (hfind : items.find? (fun i => i.id = v.client_id) = some item)
    (hbad : (∀ row ∈ st.tasks, row.id = item.task_id → row.is_deleted = true) ∨
            v.resolved_data = none) :
    (applyVerdict now items (st, synced, failed, errs) v).1.sync_queue =
      st.sync_queue.map (fun q =>
        if q.id = item.id then
          { q with retry_count := q.retry_count + 1,
                   error_message := some "Conflict unresolved" }
        else q) ∧
    (applyVerdict now items (st, synced, failed, errs) v).1.tasks =
      st.tasks.map (fun row =>
        if row.id = item.task_id then
          { row with sync_status := "error", last_synced_at := some now }
        else row) ∧
    (applyVerdict now items (st, synced, failed, errs) v).2 =
      (synced, failed + 1,
       errs ++ [{ task_id := item.task_id, operation := item.operation,
                  error := "Conflict unresolved", timestamp := now }]) := by
  have herr : applyVerdict now items (st, synced, failed, errs) v =
      (handleSyncError item "Conflict unresolved" now st, synced, failed + 1,
       errs ++ [{ task_id := item.task_id, operation := item.operation,
                  error := "Conflict unresolved", timestamp := now }]) := by
    rw [applyVerdict, hfind]
    rcases hbad with hdel | hres
    · simp [hs, getTask_eq_none_of_deleted st item.task_id hdel]
    · cases hg : getTask st item.task_id <;> simp [hs, hres, hg]
  rw [herr]
  refine ⟨?_, ?_, rfl⟩
  · simp [handleSyncError, updateSyncStatus]
  · simp [handleSyncError, updateSyncStatus, coalesce]

end TaskSync

namespace TaskSync

/-- A conflict verdict with no resolved snapshot, aimed at entry "t". -/
def verdictConf : BatchVerdict :=
  { client_id := "t", status := "conflict", server_id := none,
    resolved_data := none, error := none }

/-- C8 witness: the unresolved conflict verdict on the one-entry database
counts one failed item with one error record and no synced item. -/
theorem conflict_unresolved_marks_failed_witness :
    (applyVerdict 9 stOne.sync_queue (stOne, 0, 0, []) verdictConf).2 =
      (0, 1, [{ task_id := "t", operation := "create",
                error := "Conflict unresolved", timestamp := 9 }]) :=
  (conflict_unresolved_marks_failed 9 stOne.sync_queue stOne 0 0 []
    verdictConf entryT rfl (by decide) (Or.inr rfl)).2.2

/-- C7: each of createTask, updateTask and deleteTask persists the new row
state with sync_status "pending" and appends exactly one queue entry with
retry_count 0 describing the change, while updateTask on a missing id
returns null and deleteTask on a missing id returns false, both leaving
the database untouched. -/
theorem taskStore_mutation_contract (st : DBState) (newId id : String)
    (now : Nat) (inp : CreateInput) (upd : TaskUpdate) :
    ((createTask newId now inp st).1.sync_status = "pending" ∧
     (∃ r, (createTask newId now inp st).2.tasks = st.tasks ++ [r] ∧
        r.id = newId ∧ r.sync_status = "pending") ∧
     (∃ e, (createTask newId now inp st).2.sync_queue = st.sync_queue ++ [e] ∧
        e.task_id = newId ∧ e.operation = "create" ∧ e.retry_count = 0)) ∧
    (tasksGet st id = none → updateTask id now upd st = (none, st)) ∧
    (∀ row, tasksGet st id = some row →
      (updateTask id now upd st).1 = some (mergedTask (rowToTask row) upd now) ∧
      (updateTask id now upd st).2.tasks =
        st.tasks.map (fun r => if r.id = id then updatedRowOf r upd now else r) ∧
      (updatedRowOf row upd now).sync_status = "pending" ∧
      (∃ e, (updateTask id now upd st).2.sync_queue = st.sync_queue ++ [e] ∧
         e.task_id = id ∧ e.operation = "update" ∧ e.retry_count = 0)) ∧
    (tasksGet st id = none → deleteTask id now st = (false, st)) ∧
    (∀ row, tasksGet st id = some row →
      (deleteTask id now st).1 = true ∧
      (deleteTask id now st).2.tasks =
        st.tasks.map (fun r => if r.id = id then
          { r with is_deleted := true, updated_at := now,
                   sync_status := "pending" }
          else r) ∧
      (∃ e, (deleteTask id now st).2.sync_queue = st.sync_queue ++ [e] ∧
         e.task_id = id ∧ e.operation = "delete" ∧ e.retry_count = 0)) := by
  refine ⟨⟨rfl, ⟨_, rfl, rfl, rfl⟩, ⟨_, rfl, rfl, rfl, rfl⟩⟩, ?_, ?_, ?_, ?_⟩
  · intro hnone
    rw [updateTask, hnone]
  · intro row hrow
    rw [updateTask, hrow]
    exact ⟨rfl, rfl, rfl, ⟨_, rfl, rfl, rfl, rfl⟩⟩
  · intro hnone
    rw [deleteTask, hnone]
  · intro row hrow
    rw [deleteTask, hrow]
    exact ⟨rfl, rfl, ⟨_, rfl, rfl, rfl, rfl⟩⟩

/-- C7 witness: deleting the existing task "t" in the one-entry database
succeeds, and updating a missing id "z" is a no-op returning null. -/
theorem taskStore_mutation_contract_witness :
    (deleteTask "t" 200 stOne).1 = true ∧
    updateTask "z" 200 updNoneA stOne = (none, stOne) :=
  ⟨((taskStore_mutation_contract stOne "n" "t" 200
      { title := none, description := none, completed := none,
        server_id := none } updNoneA).2.2.2.2 rowA (by decide)).1,
   (taskStore_mutation_contract stOne "n" "z" 200
      { title := none, description := none, completed := none,
        server_id := none } updNoneA).2.1 (by decide)⟩

end TaskSync

namespace TaskSync

/-- SELECT ... WHERE id = ? after an UPDATE ... WHERE id = ? that keeps ids
fixed returns the rewritten image of the originally selected row. -/
theorem find?_map_of_id_pres (f : TaskRow → TaskRow)
    (hid : ∀ r, (f r).id = r.id) (l : List TaskRow) (id : String) :
    (l.map f).find? (fun r => r.id = id) =
      (l.find? (fun r => r.id = id)).map f := by
  induction l with
  | nil => rfl
  | cons a as ih =>
    by_cases h : a.id = id
    · rw [List.map_cons,
        List.find?_cons_of_pos _ (by simp [hid, h]),
        List.find?_cons_of_pos _ (by simp [h])]
      rfl
    · rw [List.map_cons,
        List.find?_cons_of_neg _ (by simp [hid, h]),
        List.find?_cons_of_neg _ (by simp [h]), ih]

/-- C9 amended: per task id the stored updated_at is non-decreasing under
updateTask and deleteTask whenever the wall-clock reading handed to the
mutation is at least the stored value (the code offers no guard when the
clock reads earlier); the conflict-resolution path is unconditionally
non-decreasing: getTask reports exactly the stored updated_at and
resolveConflict never picks a snapshot older than the local one, so the
writeback value is at least the stored timestamp. -/
theorem updated_at_monotone_amended (st : DBState) (id : String) (now : Nat)
    (upd : TaskUpdate) (l s : Task) :
    (∀ row, tasksGet st id = some row → row.updated_at ≤ now →
       ∀ row2, tasksGet (updateTask id now upd st).2 id = some row2 →
         row.updated_at ≤ row2.updated_at) ∧
    (∀ row, tasksGet st id = some row → row.updated_at ≤ now →
       ∀ row2, tasksGet (deleteTask id now st).2 id = some row2 →
         row.updated_at ≤ row2.updated_at) ∧
    (∀ t row, getTask st id = some t → tasksGet st id = some row →
       t.updated_at = row.updated_at) ∧
    l.updated_at ≤ (resolveConflict l s).updated_at := by
  refine ⟨?_, ?_, ?_, ?_⟩
  · intro row hrow hle row2 hrow2
    have hrow' : st.tasks.find? (fun r => r.id = id) = some row := hrow
    have hidp : ∀ r : TaskRow,
        ((fun r : TaskRow => if r.id = id then updatedRowOf r upd now else r) r).id
          = r.id := by
      intro r
      by_cases h : r.id = id <;> simp [h, updatedRowOf]
    have hget : tasksGet (updateTask id now upd st).2 id =
        some (if row.id = id then updatedRowOf row upd now else row) := by
      rw [updateTask, hrow]
      show ((st.tasks.map _).find? _) = _
      rw [find?_map_of_id_pres _ hidp, hrow']
      rfl
    rw [hget] at hrow2
    have hidrow : row.id = id := by simpa using List.find?_some hrow'
    rw [if_pos hidrow] at hrow2
    rw [← Option.some_inj.mp hrow2]
    simpa [updatedRowOf, mergedTask] using hle
  · intro row hrow hle row2 hrow2
    have hrow' : st.tasks.find? (fun r => r.id = id) = some row := hrow
    have hidp : ∀ r : TaskRow,
        ((fun r : TaskRow => if r.id = id then
            { r with is_deleted := true, updated_at := now,
                     sync_status := "pending" } else r) r).id = r.id := by
      intro r
      by_cases h : r.id = id <;> simp [h]
    have hget : tasksGet (deleteTask id now st).2 id =
        some (if row.id = id then
          ({ row with is_deleted := true, updated_at := now,
                      sync_status := "pending" } : TaskRow) else row) := by
      rw [deleteTask, hrow]
      show ((st.tasks.map _).find? _) = _
      rw [find?_map_of_id_pres _ hidp, hrow']
      rfl
    rw [hget] at hrow2
    have hidrow : row.id = id := by simpa using List.find?_some hrow'
    rw [if_pos hidrow] at hrow2
    rw [← Option.some_inj.mp hrow2]
    exact hle
  · intro t row ht hrow
    have ht' : (if row.is_deleted = true then none else some (rowToTask row))
        = some t := by
      rw [getTask, hrow] at ht
      exact ht
    by_cases hdel : row.is_deleted
    · simp [hdel] at ht'
    · rw [if_neg (by simpa using hdel), Option.some_inj] at ht'
      rw [← ht']
      rfl
  · rw [resolveConflict]
    by_cases h : s.updated_at > l.updated_at
    · rw [if_pos h]
      exact Nat.le_of_lt h
    · rw [if_neg h]

/-- C9 witness: updating task "t" (stored updated_at 100) at clock reading
120 yields a stored updated_at of at least 100. -/
theorem updated_at_monotone_amended_witness :
    rowA.updated_at ≤ (updatedRowOf rowA updNoneA 120).updated_at :=
  (updated_at_monotone_amended stOne "t" 120 updNoneA taskL taskS).1 rowA
    (by decide) (by decide) (updatedRowOf rowA updNoneA 120) (by decide)

end TaskSync
